import Mathlib

/-!
Verification development for the local Flightradar24 flights feed client
(`flightradar24_client/fr24_flights.py`).

The Python module is shallowly embedded below.  JSON scalar values that occur
in the feed (strings, numbers, null) are `JsonVal`; Python runtime errors that
the relevant code paths can raise (`TypeError`, `IndexError`) are `PyErr`, and
fallible code returns `Except PyErr`.  The two external collaborators that the
module calls for computation are treated as follows: the `haversine` library
function is an explicit parameter `dist : ℚ × ℚ → ℚ × ℚ → ℚ` of every
definition that needs it, and `datetime.datetime.fromtimestamp(. , tz=utc)`
is embedded as `fromtimestampUTC` via the standard proleptic-Gregorian
civil-from-days conversion.  The HTTP transport is abstracted into the input
of `Flightradar24FlightsFeed.update`: `none` stands for a failed round trip
(connection error, non-2xx status, or a JSON decode failure, all of which the
source folds into the same error outcome) and `some j` stands for a 2xx
response whose body parsed as the JSON object `j`, given as its key/value
pairs in insertion order.  Python dicts are association lists in insertion
order (`dget` / `dinsert`).
-/

/-- A JSON scalar value as it occurs in the flights feed. -/
inductive JsonVal : Type where
  | null : JsonVal
  | str : String → JsonVal
  | num : ℚ → JsonVal
deriving DecidableEq

/-- Python truthiness of a JSON scalar: `None`, `""` and `0` are falsy. -/
def JsonVal.truthy : JsonVal → Bool
  | JsonVal.null => false
  | JsonVal.str s => s ≠ ""
  | JsonVal.num q => q ≠ 0

/-- Whether a JSON scalar is a number. -/
def JsonVal.isNum : JsonVal → Bool
  | JsonVal.num _ => true
  | _ => false

/-- Python truthiness of an optional value (`None` is falsy). -/
def optTruthy : Option JsonVal → Bool
  | none => false
  | some v => v.truthy

/-- The Python runtime errors the embedded code paths can raise. -/
inductive PyErr : Type where
  | typeError : PyErr
  | indexError : PyErr
deriving DecidableEq

/-- The update outcome constants `UPDATE_OK` / `UPDATE_ERROR` from
`flightradar24_client.consts` (not under `src/`): a two-valued outcome whose
only use in the source is equality comparison. -/
inductive Status : Type where
  | UPDATE_OK : Status
  | UPDATE_ERROR : Status
deriving DecidableEq

/-- The named fields of one decoded feed record, i.e. the keys of the dict
built by `Flightradar24FlightsFeed._parse` for one entry. -/
inductive FieldKey : Type where
  | mode_s | latitude | longitude | track | altitude | speed
  | squawk | updated | vert_rate | callsign
deriving DecidableEq

/-- One decoded feed record: the dict built by
`Flightradar24FlightsFeed._parse` for one entry. -/
structure FieldData : Type where
  mode_s : JsonVal
  latitude : JsonVal
  longitude : JsonVal
  track : JsonVal
  altitude : JsonVal
  speed : JsonVal
  squawk : JsonVal
  updated : JsonVal
  vert_rate : JsonVal
  callsign : JsonVal
deriving DecidableEq

/-- Read the value stored under a named key of a record. -/
def FieldData.get (d : FieldData) : FieldKey → JsonVal
  | FieldKey.mode_s => d.mode_s
  | FieldKey.latitude => d.latitude
  | FieldKey.longitude => d.longitude
  | FieldKey.track => d.track
  | FieldKey.altitude => d.altitude
  | FieldKey.speed => d.speed
  | FieldKey.squawk => d.squawk
  | FieldKey.updated => d.updated
  | FieldKey.vert_rate => d.vert_rate
  | FieldKey.callsign => d.callsign

/-- Store a value under a named key of a record (`self._data[key] = value`). -/
def FieldData.set (d : FieldData) : FieldKey → JsonVal → FieldData
  | FieldKey.mode_s, v => { d with mode_s := v }
  | FieldKey.latitude, v => { d with latitude := v }
  | FieldKey.longitude, v => { d with longitude := v }
  | FieldKey.track, v => { d with track := v }
  | FieldKey.altitude, v => { d with altitude := v }
  | FieldKey.speed, v => { d with speed := v }
  | FieldKey.squawk, v => { d with squawk := v }
  | FieldKey.updated, v => { d with updated := v }
  | FieldKey.vert_rate, v => { d with vert_rate := v }
  | FieldKey.callsign, v => { d with callsign := v }

/-- The record read off a raw positional array at the ten fixed indices
0, 1, 2, 3, 4, 5, 6, 10, 15, 16 (missing positions default to `null`; used
to state what a successful decode returns). -/
def recordOf (r : List JsonVal) : FieldData :=
  { mode_s := r.getD 0 JsonVal.null
    latitude := r.getD 1 JsonVal.null
    longitude := r.getD 2 JsonVal.null
    track := r.getD 3 JsonVal.null
    altitude := r.getD 4 JsonVal.null
    speed := r.getD 5 JsonVal.null
    squawk := r.getD 6 JsonVal.null
    updated := r.getD 10 JsonVal.null
    vert_rate := r.getD 15 JsonVal.null
    callsign := r.getD 16 JsonVal.null }

/-- A UTC wall-clock instant, as produced by
`datetime.datetime.fromtimestamp(. , tz=datetime.timezone.utc)`. -/
structure UTCTime : Type where
  year : Int
  month : Nat
  day : Nat
  hour : Nat
  minute : Nat
  second : ℚ
deriving DecidableEq

/-- Proleptic-Gregorian date from a count of days since the Unix epoch
(the standard civil-from-days conversion). -/
def civilFromDays (z0 : Int) : Int × Nat × Nat :=
  let z : Int := z0 + 719468
  let era : Int := Int.fdiv z 146097
  let doe : Nat := (z - era * 146097).toNat
  let yoe : Nat := (doe - doe / 1460 + doe / 36524 - doe / 146096) / 365
  let y : Int := (yoe : Int) + era * 400
  let doy : Nat := doe - (365 * yoe + yoe / 4 - yoe / 100)
  let mp : Nat := (5 * doy + 2) / 153
  let day : Nat := doy - (153 * mp + 2) / 5 + 1
  let month : Nat := if mp < 10 then mp + 3 else mp - 9
  (if month ≤ 2 then y + 1 else y, month, day)

/-- Embedding of `datetime.datetime.fromtimestamp(q, tz=datetime.timezone.utc)`:
the UTC instant `q` seconds after the Unix epoch. -/
def fromtimestampUTC (q : ℚ) : UTCTime :=
  let days : Int := ⌊q / 86400⌋
  let sod : ℚ := q - ((days : ℚ) * 86400)
  let s : Int := ⌊sod⌋
  let frac : ℚ := sod - (s : ℚ)
  let c := civilFromDays days
  { year := c.1
    month := c.2.1
    day := c.2.2
    hour := s.toNat / 3600
    minute := s.toNat % 3600 / 60
    second := ((s.toNat % 60 : Nat) : ℚ) + frac }

/-- Embedding of the `Flightradar24FeedEntry` class: the reference coordinates
and the wrapped record.  `data = none` stands for a falsy `_data` (`None` or
an empty dict). -/
structure Flightradar24FeedEntry : Type where
  home_coordinates : ℚ × ℚ
  data : Option FieldData
deriving DecidableEq

/-- Property `coordinates`: the `(latitude, longitude)` pair whenever `_data`
is truthy (the pair is returned even when the stored values are `null`). -/
def Flightradar24FeedEntry.coordinates (e : Flightradar24FeedEntry) :
    Option (JsonVal × JsonVal) :=
  match e.data with
  | some d => some (d.latitude, d.longitude)
  | none => none

/-- Property `external_id`. -/
def Flightradar24FeedEntry.external_id (e : Flightradar24FeedEntry) : Option JsonVal :=
  match e.data with
  | some d => some d.mode_s
  | none => none

/-- Property `altitude`. -/
def Flightradar24FeedEntry.altitude (e : Flightradar24FeedEntry) : Option JsonVal :=
  match e.data with
  | some d => some d.altitude
  | none => none

/-- Property `callsign`. -/
def Flightradar24FeedEntry.callsign (e : Flightradar24FeedEntry) : Option JsonVal :=
  match e.data with
  | some d => some d.callsign
  | none => none

/-- Property `speed`. -/
def Flightradar24FeedEntry.speed (e : Flightradar24FeedEntry) : Option JsonVal :=
  match e.data with
  | some d => some d.speed
  | none => none

/-- Property `track`. -/
def Flightradar24FeedEntry.track (e : Flightradar24FeedEntry) : Option JsonVal :=
  match e.data with
  | some d => some d.track
  | none => none

/-- Property `updated`: parse the `updated` epoch-seconds value into a UTC
instant when it is truthy; `fromtimestamp` on a truthy non-number raises
`TypeError`. -/
def Flightradar24FeedEntry.updated (e : Flightradar24FeedEntry) :
    Except PyErr (Option UTCTime) :=
  match e.data with
  | none => Except.ok none
  | some d =>
    if d.updated.truthy then
      match d.updated with
      | JsonVal.num q => Except.ok (some (fromtimestampUTC q))
      | _ => Except.error PyErr.typeError
    else Except.ok none

/-- Method `override`: replace one named field in the wrapped record; a no-op
when `_data` is falsy. -/
def Flightradar24FeedEntry.override (e : Flightradar24FeedEntry)
    (key : FieldKey) (value : JsonVal) : Flightradar24FeedEntry :=
  match e.data with
  | some d => { e with data := some (d.set key value) }
  | none => e

/-- Property `distance_to_home`: `haversine(home, coordinates)`, where the
haversine library function is the parameter `dist`.  Calling it with an
absent pair or with non-numeric members raises `TypeError`. -/
def Flightradar24FeedEntry.distance_to_home (e : Flightradar24FeedEntry)
    (dist : ℚ × ℚ → ℚ × ℚ → ℚ) : Except PyErr ℚ :=
  match e.coordinates with
  | some (JsonVal.num la, JsonVal.num lo) => Except.ok (dist e.home_coordinates (la, lo))
  | _ => Except.error PyErr.typeError

/-- The configuration held by `Flightradar24FlightsFeed.__init__`: the
reference coordinates and the optional filter radius in kilometres. -/
structure FeedConfig : Type where
  home_coordinates : ℚ × ℚ
  filter_radius : Option ℚ
deriving DecidableEq

/-- Left-to-right `list(filter(pred, xs))` for a predicate that can raise:
the first raising element aborts the whole traversal. -/
def exceptFilter {α : Type} (p : α → Except PyErr Bool) : List α → Except PyErr (List α)
  | [] => Except.ok []
  | x :: xs =>
    match p x with
    | Except.error err => Except.error err
    | Except.ok b =>
      match exceptFilter p xs with
      | Except.error err => Except.error err
      | Except.ok rest => Except.ok (if b then x :: rest else rest)

/-- Python comparison `value > 0` for an entry altitude: defined only on
numbers, `TypeError` otherwise (in particular on `None` and `null`). -/
def pyGtZero (a : Option JsonVal) : Except PyErr Bool :=
  match a with
  | some (JsonVal.num q) => Except.ok (decide (0 < q))
  | _ => Except.error PyErr.typeError

/-- The distance predicate of the third filter stage:
`entry.distance_to_home <= radius`. -/
def distanceWithin (dist : ℚ × ℚ → ℚ × ℚ → ℚ) (r : ℚ)
    (e : Flightradar24FeedEntry) : Except PyErr Bool :=
  Except.map (fun dv => decide (dv ≤ r)) (e.distance_to_home dist)

/-- Method `Flightradar24FlightsFeed._filter_entries`: drop entries whose
`coordinates` property is `None`, then entries failing `altitude > 0`, then —
only when the configured radius is truthy (present and nonzero) — entries
beyond the radius. -/
def Flightradar24FlightsFeed.filter_entries (cfg : FeedConfig)
    (dist : ℚ × ℚ → ℚ × ℚ → ℚ) (entries : List Flightradar24FeedEntry) :
    Except PyErr (List Flightradar24FeedEntry) :=
  match exceptFilter (fun e => pyGtZero e.altitude)
      (entries.filter (fun e => e.coordinates.isSome)) with
  | Except.error err => Except.error err
  | Except.ok es2 =>
    match cfg.filter_radius with
    | none => Except.ok es2
    | some r =>
      if r = 0 then Except.ok es2
      else exceptFilter (distanceWithin dist r) es2

/-- One iteration of the dict literal inside `Flightradar24FlightsFeed._parse`:
read the ten fixed positions of one raw array.  Any missing position raises
`IndexError`; since every failing subscript raises the same error, reading the
positions simultaneously is observably the order in which Python evaluates
them. -/
def Flightradar24FlightsFeed.parseRecord (data_entry : List JsonVal) :
    Except PyErr FieldData :=
  match data_entry[0]?, data_entry[1]?, data_entry[2]?,
      data_entry[3]?, data_entry[4]?, data_entry[5]?,
      data_entry[6]?, data_entry[10]?, data_entry[15]?,
      data_entry[16]? with
  | some a0, some a1, some a2, some a3, some a4, some a5, some a6,
      some a10, some a15, some a16 =>
    Except.ok
      { mode_s := a0, latitude := a1, longitude := a2, track := a3,
        altitude := a4, speed := a5, squawk := a6, updated := a10,
        vert_rate := a15, callsign := a16 }
  | _, _, _, _, _, _, _, _, _, _ => Except.error PyErr.indexError

/-- Method `Flightradar24FlightsFeed._parse` after `json.loads`: walk the keys
of the parsed JSON object in order and decode each raw array; an uncaught
`IndexError` aborts the walk. -/
def Flightradar24FlightsFeed.parse :
    List (String × List JsonVal) → Except PyErr (List FieldData)
  | [] => Except.ok []
  | (_, r) :: rest =>
    match Flightradar24FlightsFeed.parseRecord r with
    | Except.error err => Except.error err
    | Except.ok fd =>
      match Flightradar24FlightsFeed.parse rest with
      | Except.error err => Except.error err
      | Except.ok fds => Except.ok (fd :: fds)

/-- Lookup in a Python dict represented as an association list in insertion
order (`d[k]` / `k in d`). -/
def dget {K V : Type} [DecidableEq K] (k : K) : List (K × V) → Option V
  | [] => none
  | p :: rest => if p.1 = k then some p.2 else dget k rest

/-- Assignment `d[k] = v` on a Python dict represented as an association list:
replace in place when the key exists, append otherwise. -/
def dinsert {K V : Type} [DecidableEq K] (k : K) (v : V) :
    List (K × V) → List (K × V)
  | [] => [(k, v)]
  | p :: rest => if p.1 = k then (p.1, v) :: rest else p :: dinsert k v rest

/-- A poll result: the dict from `external_id` to entry built by
`Flightradar24FlightsFeed.update`. -/
abbrev FeedDict : Type := List (Option JsonVal × Flightradar24FeedEntry)

/-- The aggregator callsign memory: dict from `external_id` to the first
recorded truthy callsign value. -/
abbrev CsMap : Type := List (Option JsonVal × JsonVal)

/-- Method `Flightradar24FlightsFeed.update`: the pipeline downstream of the
transport.  `body = none` is a failed fetch; `body = some j` is a 2xx
response whose text parsed as the JSON object `j`. -/
def Flightradar24FlightsFeed.update (cfg : FeedConfig)
    (dist : ℚ × ℚ → ℚ × ℚ → ℚ) (body : Option (List (String × List JsonVal))) :
    Except PyErr (Status × Option FeedDict) :=
  match body with
  | none => Except.ok (Status.UPDATE_ERROR, none)
  | some j =>
    match Flightradar24FlightsFeed.parse j with
    | Except.error err => Except.error err
    | Except.ok [] => Except.ok (Status.UPDATE_OK, none)
    | Except.ok (fd :: fds) =>
      let feed_entries := (fd :: fds).map
        (fun d => { home_coordinates := cfg.home_coordinates, data := some d :
            Flightradar24FeedEntry })
      match Flightradar24FlightsFeed.filter_entries cfg dist feed_entries with
      | Except.error err => Except.error err
      | Except.ok filtered =>
        Except.ok (Status.UPDATE_OK,
          some (filtered.foldl (fun d e => dinsert e.external_id e d) []))

/-- Whether a feed update outcome is a success carrying a payload. -/
def okWithPayload : Except PyErr (Status × Option FeedDict) → Bool
  | Except.ok (Status.UPDATE_OK, some _) => true
  | _ => false

/-- `DEFAULT_AGGREGATOR_STACK_SIZE` from the source. -/
def DEFAULT_AGGREGATOR_STACK_SIZE : Nat := 10

/-- An element of the aggregator deque: either one of the initial empty-list
fillers or a pushed poll result (which is `None` on the empty-payload path). -/
inductive StackElem : Type where
  | emptyList : StackElem
  | result : Option FeedDict → StackElem
deriving DecidableEq

/-- The mutable state of `Flightradar24FlightsFeedAggregator`: the bounded
history deque and the callsign memory. -/
structure AggState : Type where
  stack : List StackElem
  callsigns : CsMap
deriving DecidableEq

/-- The state set up by `Flightradar24FlightsFeedAggregator.__init__`. -/
def Flightradar24FlightsFeedAggregator.initState : AggState :=
  { stack := List.replicate DEFAULT_AGGREGATOR_STACK_SIZE StackElem.emptyList
    callsigns := [] }

/-- One iteration of the gap-filling loop in
`Flightradar24FlightsFeedAggregator.update` for the key `key`: record a
truthy callsign for a key not yet remembered, then backfill the entry through
`override` when its own callsign is falsy and the memory has one. -/
def aggStep (p : CsMap × FeedDict) (key : Option JsonVal) : CsMap × FeedDict :=
  match dget key p.2 with
  | none => p
  | some entry =>
    let cs1 : CsMap :=
      match dget key p.1, entry.callsign with
      | none, some c => if c.truthy then dinsert key c p.1 else p.1
      | _, _ => p.1
    let d1 : FeedDict :=
      if optTruthy entry.callsign then p.2
      else
        match dget key cs1 with
        | some c => dinsert key (entry.override FieldKey.callsign c) p.2
        | none => p.2
    (cs1, d1)

/-- The gap-filling loop of `Flightradar24FlightsFeedAggregator.update`:
iterate over the keys of the poll result in insertion order, threading the
callsign memory and the (mutated in place) poll result. -/
def aggLoop (cs : CsMap) (d : FeedDict) : CsMap × FeedDict :=
  (d.map Prod.fst).foldl aggStep (cs, d)

/-- Method `Flightradar24FlightsFeedAggregator.update`, as a function of the
outcome pair produced by the wrapped feed.  On a truthy status the deque is
popped and the payload pushed before the loop runs; the pushed object is the
same dict the loop then mutates, so the stored element reflects the repaired
dict.  When the payload is `None` (failed fetch, or empty feed) the loop
header `for key in data` raises `TypeError`, after the push has already
happened. -/
def Flightradar24FlightsFeedAggregator.update (st : AggState) (status : Status)
    (data : Option FeedDict) : AggState × Except PyErr (Status × Option FeedDict) :=
  match status, data with
  | Status.UPDATE_OK, none =>
    ({ st with stack := StackElem.result none :: st.stack.dropLast },
     Except.error PyErr.typeError)
  | Status.UPDATE_ERROR, none => (st, Except.error PyErr.typeError)
  | Status.UPDATE_OK, some d =>
    ({ stack := StackElem.result (some (aggLoop st.callsigns d).2) :: st.stack.dropLast
       callsigns := (aggLoop st.callsigns d).1 },
     Except.ok (Status.UPDATE_OK, some (aggLoop st.callsigns d).2))
  | Status.UPDATE_ERROR, some d =>
    ({ st with callsigns := (aggLoop st.callsigns d).1 },
     Except.ok (Status.UPDATE_ERROR, some (aggLoop st.callsigns d).2))

/-- The payload carried by a feed update outcome, as a zero- or one-element
list (used to collect the results of a run of updates). -/
def resultDicts : Except PyErr (Status × Option FeedDict) → List FeedDict
  | Except.ok (_, some d) => [d]
  | _ => []

/-- Drive the aggregator through a run of successful polls: each element of
the list is the payload of one `UPDATE_OK` feed result.  Returns the final
aggregator state and the payloads returned by the successive `update` calls. -/
def runUpdates : AggState → List FeedDict → AggState × List FeedDict
  | st, [] => (st, [])
  | st, d :: ds =>
    let r := Flightradar24FlightsFeedAggregator.update st Status.UPDATE_OK (some d)
    let rest := runUpdates r.1 ds
    (rest.1, resultDicts r.2 ++ rest.2)

/-- A raw record that decodes and filters without a runtime error: it has all
17 fixed positions and numeric latitude, longitude and altitude. -/
def wellFormedRecord (r : List JsonVal) : Bool :=
  decide (17 ≤ r.length) && (r.getD 1 JsonVal.null).isNum
    && (r.getD 2 JsonVal.null).isNum && (r.getD 4 JsonVal.null).isNum

/-! ### Concrete data used to instantiate the theorems -/

/-- A constant stand-in for the haversine function. -/
def distConst (q : ℚ) : ℚ × ℚ → ℚ × ℚ → ℚ := fun _ _ => q

/-- A feed configured with no radius. -/
def cfgNoRadius : FeedConfig := { home_coordinates := (0, 0), filter_radius := none }

/-- A feed configured with radius `0` (falsy in Python). -/
def cfgZeroRadius : FeedConfig := { home_coordinates := (0, 0), filter_radius := some 0 }

/-- A feed configured with radius `50`. -/
def cfgRadius50 : FeedConfig := { home_coordinates := (0, 0), filter_radius := some 50 }

/-- A record with `null` in every field. -/
def nullRecord : FieldData :=
  { mode_s := JsonVal.null, latitude := JsonVal.null, longitude := JsonVal.null,
    track := JsonVal.null, altitude := JsonVal.null, speed := JsonVal.null,
    squawk := JsonVal.null, updated := JsonVal.null, vert_rate := JsonVal.null,
    callsign := JsonVal.null }

/-- The literal raw record quoted by the specification.  It has 18 positions:
five zeros follow the timestamp, so `800` sits at index 16 and `"BAW123"` at
index 17. -/
def specLiteralRecord : List JsonVal :=
  [JsonVal.str "A1B2C3", JsonVal.num 51.5, JsonVal.num (-0.1), JsonVal.num 90,
   JsonVal.num 5000, JsonVal.num 250, JsonVal.str "1200", JsonVal.num 0,
   JsonVal.num 0, JsonVal.num 0, JsonVal.num 1700000000, JsonVal.num 0,
   JsonVal.num 0, JsonVal.num 0, JsonVal.num 0, JsonVal.num 0, JsonVal.num 800,
   JsonVal.str "BAW123"]

/-- The 17-position raw record the specification intends: four reserved zeros
after the timestamp, `800` at index 15 and `"BAW123"` at index 16. -/
def exampleRecord : List JsonVal :=
  [JsonVal.str "A1B2C3", JsonVal.num 51.5, JsonVal.num (-0.1), JsonVal.num 90,
   JsonVal.num 5000, JsonVal.num 250, JsonVal.str "1200", JsonVal.num 0,
   JsonVal.num 0, JsonVal.num 0, JsonVal.num 1700000000, JsonVal.num 0,
   JsonVal.num 0, JsonVal.num 0, JsonVal.num 0, JsonVal.num 800,
   JsonVal.str "BAW123"]

/-- The record of an entry with `null` coordinates but a positive altitude. -/
def recordNullCoords : FieldData := { nullRecord with altitude := JsonVal.num 1000 }

/-- An entry whose record has `null` coordinates but a positive altitude. -/
def entryNullCoords : Flightradar24FeedEntry :=
  { home_coordinates := (0, 0), data := some recordNullCoords }

/-- An entry with an empty underlying record. -/
def entryNoData : Flightradar24FeedEntry := { home_coordinates := (0, 0), data := none }

/-- The record of an entry with numeric coordinates and a `null` altitude. -/
def recordNullAltitude : FieldData :=
  { nullRecord with latitude := JsonVal.num 1, longitude := JsonVal.num 1 }

/-- An entry with numeric coordinates and a `null` altitude. -/
def entryNullAltitude : Flightradar24FeedEntry :=
  { home_coordinates := (0, 0), data := some recordNullAltitude }

/-- The record of an entry with numeric coordinates and altitude `0`. -/
def recordZeroAltitude : FieldData :=
  { recordNullAltitude with altitude := JsonVal.num 0 }

/-- An entry with numeric coordinates and altitude `0`. -/
def entryZeroAltitude : Flightradar24FeedEntry :=
  { home_coordinates := (0, 0), data := some recordZeroAltitude }

/-- The record of an airborne entry with numeric coordinates. -/
def recordAirborne : FieldData :=
  { recordNullAltitude with altitude := JsonVal.num 1000 }

/-- An airborne entry with numeric coordinates. -/
def entryAirborne : Flightradar24FeedEntry :=
  { home_coordinates := (0, 0), data := some recordAirborne }

/-- The key of the tracked aircraft in the callsign-memory scenarios. -/
def keyX : Option JsonVal := some (JsonVal.str "7C6B28")

/-- The record seen on cycle 1 of the callsign scenario: callsign `"UAL1"`. -/
def recordCycle1 : FieldData :=
  { nullRecord with mode_s := JsonVal.str "7C6B28", callsign := JsonVal.str "UAL1" }

/-- Cycle 1 entry of the callsign scenario. -/
def entryCycle1 : Flightradar24FeedEntry :=
  { home_coordinates := (0, 0), data := some recordCycle1 }

/-- The record seen on cycle 2 of the callsign scenario: empty callsign. -/
def recordCycle2 : FieldData :=
  { nullRecord with mode_s := JsonVal.str "7C6B28", callsign := JsonVal.str "" }

/-- Cycle 2 entry of the callsign scenario. -/
def entryCycle2 : Flightradar24FeedEntry :=
  { home_coordinates := (0, 0), data := some recordCycle2 }

/-- The record seen on cycle 3 of the callsign scenario: callsign `"UAL2"`. -/
def recordCycle3 : FieldData :=
  { nullRecord with mode_s := JsonVal.str "7C6B28", callsign := JsonVal.str "UAL2" }

/-- Cycle 3 entry of the callsign scenario. -/
def entryCycle3 : Flightradar24FeedEntry :=
  { home_coordinates := (0, 0), data := some recordCycle3 }

/-- An aggregator state that already remembers `"UAL1"` for `keyX`. -/
def stateRemembersUAL1 : AggState :=
  { stack := List.replicate DEFAULT_AGGREGATOR_STACK_SIZE StackElem.emptyList
    callsigns := [(keyX, JsonVal.str "UAL1")] }

/-- A one-record JSON object whose record is well formed. -/
def bodyOneRecord : List (String × List JsonVal) := [("7C6B28", exampleRecord)]

/-- A JSON object holding one well-formed record and one too-short record. -/
def bodyWithShortRecord : List (String × List JsonVal) :=
  [("7C6B28", exampleRecord), ("7C6B29", [JsonVal.str "A1B2C3"])]

/-- A JSON object holding a single too-short record. -/
def bodyOnlyShortRecord : List (String × List JsonVal) := [("7C6B29", [JsonVal.null])]

/-! ### Helper lemmas about list indexing and decoding -/

theorem getElem?_eq_some_getD (r : List JsonVal) (i : Nat) (h : i < r.length) :
    r[i]? = some (r.getD i JsonVal.null) := by
  cases hh : r[i]? with
  | none => exact absurd (List.getElem?_eq_none_iff.mp hh) (by omega)
  | some a => rw [List.getD_eq_getElem?_getD, hh]; rfl

theorem parseRecord_of_length (r : List JsonVal) (h : 17 ≤ r.length) :
    Flightradar24FlightsFeed.parseRecord r = Except.ok (recordOf r) := by
  unfold Flightradar24FlightsFeed.parseRecord
  rw [getElem?_eq_some_getD r 0 (by omega), getElem?_eq_some_getD r 1 (by omega),
    getElem?_eq_some_getD r 2 (by omega), getElem?_eq_some_getD r 3 (by omega),
    getElem?_eq_some_getD r 4 (by omega), getElem?_eq_some_getD r 5 (by omega),
    getElem?_eq_some_getD r 6 (by omega), getElem?_eq_some_getD r 10 (by omega),
    getElem?_eq_some_getD r 15 (by omega), getElem?_eq_some_getD r 16 (by omega)]
  rfl

theorem parseRecord_of_short (r : List JsonVal) (h : r.length < 17) :
    Flightradar24FlightsFeed.parseRecord r = Except.error PyErr.indexError := by
  have h16 : r[16]? = none := List.getElem?_eq_none_iff.mpr (by omega)
  unfold Flightradar24FlightsFeed.parseRecord
  cases r[0]? <;> cases r[1]? <;> cases r[2]? <;> cases r[3]? <;>
    cases r[4]? <;> cases r[5]? <;> cases r[6]? <;> cases r[10]? <;>
    cases r[15]? <;> simp [h16]

theorem parse_of_lengths (j : List (String × List JsonVal))
    (h : ∀ p ∈ j, 17 ≤ p.2.length) :
    Flightradar24FlightsFeed.parse j = Except.ok (j.map (fun p => recordOf p.2)) := by
  induction j with
  | nil => rfl
  | cons hd tl ih =>
    have hhd : 17 ≤ hd.2.length := h hd (by simp)
    have htl : ∀ p ∈ tl, 17 ≤ p.2.length := fun p hp => h p (by simp [hp])
    cases hd with
    | mk k r =>
      simp [Flightradar24FlightsFeed.parse, parseRecord_of_length r hhd, ih htl]

theorem parse_of_short_mem (j : List (String × List JsonVal))
    (h : ∃ p ∈ j, p.2.length < 17) :
    Flightradar24FlightsFeed.parse j = Except.error PyErr.indexError := by
  induction j with
  | nil => simp at h
  | cons hd tl ih =>
    obtain ⟨p, hp, hlen⟩ := h
    rcases List.mem_cons.mp hp with heq | hmem
    · subst heq
      cases p with
      | mk k r => simp [Flightradar24FlightsFeed.parse, parseRecord_of_short r hlen]
    · cases hd with
      | mk k r =>
        cases hrec : Flightradar24FlightsFeed.parseRecord r with
        | error err =>
          have : err = PyErr.indexError := by
            by_cases hr : r.length < 17
            · have := parseRecord_of_short r hr; rw [hrec] at this; injection this
            · have := parseRecord_of_length r (by omega); rw [hrec] at this; cases this
          simp [Flightradar24FlightsFeed.parse, hrec, this]
        | ok fd => simp [Flightradar24FlightsFeed.parse, hrec, ih ⟨p, hmem, hlen⟩]

/-! ### Helper lemmas about the filtering stages -/

theorem mem_exceptFilter {α : Type} {p : α → Except PyErr Bool} :
    ∀ {l out : List α}, exceptFilter p l = Except.ok out →
      ∀ a, (a ∈ out ↔ a ∈ l ∧ p a = Except.ok true)
  | [], out, h, a => by
    simp only [exceptFilter] at h
    injection h with h; subst h; simp
  | x :: xs, out, h, a => by
    simp only [exceptFilter] at h
    cases hpx : p x with
    | error err => rw [hpx] at h; cases h
    | ok b =>
      rw [hpx] at h
      cases hrest : exceptFilter p xs with
      | error err => rw [hrest] at h; cases h
      | ok rest =>
        rw [hrest] at h
        injection h with h; subst h
        have ih := mem_exceptFilter hrest a
        cases b with
        | true =>
          rw [if_pos rfl]
          simp only [List.mem_cons, ih]
          constructor
          · rintro (rfl | ⟨hm, hpa⟩)
            · exact ⟨Or.inl rfl, hpx⟩
            · exact ⟨Or.inr hm, hpa⟩
          · rintro ⟨rfl | hm, hpa⟩
            · exact Or.inl rfl
            · exact Or.inr ⟨hm, hpa⟩
        | false =>
          rw [if_neg Bool.false_ne_true]
          simp only [List.mem_cons, ih]
          constructor
          · rintro ⟨hm, hpa⟩
            exact ⟨Or.inr hm, hpa⟩
          · rintro ⟨rfl | hm, hpa⟩
            · rw [hpa] at hpx; injection hpx with hb; cases hb
            · exact ⟨hm, hpa⟩

theorem exceptFilter_ok_forall {α : Type} {p : α → Except PyErr Bool} :
    ∀ {l out : List α}, exceptFilter p l = Except.ok out →
      ∀ a ∈ l, ∃ b, p a = Except.ok b
  | [], _, _, a, ha => by simp at ha
  | x :: xs, out, h, a, ha => by
    simp only [exceptFilter] at h
    cases hpx : p x with
    | error err => rw [hpx] at h; cases h
    | ok b =>
      rw [hpx] at h
      cases hrest : exceptFilter p xs with
      | error err => rw [hrest] at h; cases h
      | ok rest =>
        rcases List.mem_cons.mp ha with rfl | hm
        · exact ⟨b, hpx⟩
        · exact exceptFilter_ok_forall hrest a hm

theorem exceptFilter_ok_of_forall {α : Type} {p : α → Except PyErr Bool} :
    ∀ {l : List α}, (∀ a ∈ l, ∃ b, p a = Except.ok b) →
      ∃ out, exceptFilter p l = Except.ok out := by
  intro l
  induction l with
  | nil => intro h; exact ⟨[], rfl⟩
  | cons x xs ih =>
    intro h
    obtain ⟨b, hb⟩ := h x (by simp)
    obtain ⟨out, hout⟩ := ih (fun a ha => h a (by simp [ha]))
    exact ⟨if b then x :: out else out, by simp [exceptFilter, hb, hout]⟩

theorem filter_entries_ok_elim {cfg : FeedConfig} {dist : ℚ × ℚ → ℚ × ℚ → ℚ}
    {es out : List Flightradar24FeedEntry}
    (h : Flightradar24FlightsFeed.filter_entries cfg dist es = Except.ok out) :
    ∃ es2, exceptFilter (fun e => pyGtZero e.altitude)
        (es.filter (fun e => e.coordinates.isSome)) = Except.ok es2
      ∧ ((cfg.filter_radius = none ∨ cfg.filter_radius = some 0) → out = es2)
      ∧ (∀ r, cfg.filter_radius = some r → r ≠ 0 →
          exceptFilter (distanceWithin dist r) es2 = Except.ok out) := by
  unfold Flightradar24FlightsFeed.filter_entries at h
  cases h2 : exceptFilter (fun e => pyGtZero e.altitude)
      (es.filter (fun e => e.coordinates.isSome)) with
  | error err => rw [h2] at h; cases h
  | ok es2 =>
    rw [h2] at h
    refine ⟨es2, rfl, ?_, ?_⟩
    · rintro (hc | hc) <;> rw [hc] at h <;> simp at h <;> exact h.symm
    · intro r hr hne
      rw [hr] at h
      simp only [if_neg hne] at h
      exact h

theorem mem_of_mem_filter_entries {cfg : FeedConfig} {dist : ℚ × ℚ → ℚ × ℚ → ℚ}
    {es out : List Flightradar24FeedEntry} {e : Flightradar24FeedEntry}
    (h : Flightradar24FlightsFeed.filter_entries cfg dist es = Except.ok out)
    (he : e ∈ out) :
    e ∈ es ∧ e.coordinates.isSome = true ∧ pyGtZero e.altitude = Except.ok true := by
  obtain ⟨es2, h2, hfalsy, htruthy⟩ := filter_entries_ok_elim h
  have he2 : e ∈ es2 := by
    cases hr : cfg.filter_radius with
    | none => rw [← hfalsy (Or.inl hr)]; exact he
    | some r =>
      by_cases h0 : r = 0
      · subst h0; rw [← hfalsy (Or.inr hr)]; exact he
      · exact ((mem_exceptFilter (htruthy r hr h0) e).mp he).1
  have hm := (mem_exceptFilter h2 e).mp he2
  have hf := List.mem_filter.mp hm.1
  exact ⟨hf.1, hf.2, hm.2⟩

/-! ### Helper lemmas about dicts and the aggregator loop -/

theorem dget_dinsert_self {K V : Type} [DecidableEq K] (k : K) (v : V) :
    ∀ l : List (K × V), dget k (dinsert k v l) = some v
  | [] => by simp [dget, dinsert]
  | p :: rest => by
    by_cases hp : p.1 = k
    · simp [dget, dinsert, hp]
    · simp [dget, dinsert, hp, dget_dinsert_self k v rest]

theorem dget_dinsert_ne {K V : Type} [DecidableEq K] {k2 k : K} (hne : k2 ≠ k) (v : V) :
    ∀ l : List (K × V), dget k (dinsert k2 v l) = dget k l
  | [] => by simp [dget, dinsert, hne]
  | p :: rest => by
    by_cases hp : p.1 = k2
    · by_cases hpk : p.1 = k
      · exact absurd (hp.symm.trans hpk) hne
      · simp [dget, dinsert, hp, hpk, hne]
    · by_cases hpk : p.1 = k
      · simp [dget, dinsert, hp, hpk, Ne.symm hne]
      · simp [dget, dinsert, hp, hpk, dget_dinsert_ne hne v rest]

theorem dget_some_mem {K V : Type} [DecidableEq K] {k : K} {v : V} :
    ∀ {l : List (K × V)}, dget k l = some v → k ∈ l.map Prod.fst
  | [], h => by cases h
  | p :: rest, h => by
    by_cases hp : p.1 = k
    · simp [hp]
    · simp only [dget, if_neg hp] at h
      simp [dget_some_mem h]

theorem aggStep_cs_some {p : CsMap × FeedDict} {key k : Option JsonVal} {c : JsonVal}
    (h : dget k p.1 = some c) : dget k (aggStep p key).1 = some c := by
  unfold aggStep
  cases hd : dget key p.2 with
  | none => exact h
  | some entry =>
    dsimp only
    cases hcs : dget key p.1 with
    | some c0 => simpa [hcs] using h
    | none =>
      cases hcall : entry.callsign with
      | none => simpa [hcs, hcall] using h
      | some c2 =>
        by_cases ht : c2.truthy
        · have hne : key ≠ k := by
            intro heq; rw [heq, h] at hcs; cases hcs
          simp [hcs, hcall, ht, dget_dinsert_ne hne, h]
        · simp [hcs, hcall, ht, h]

theorem aggStep_dget_ne {p : CsMap × FeedDict} {key k : Option JsonVal} (hne : key ≠ k) :
    dget k (aggStep p key).1 = dget k p.1 ∧ dget k (aggStep p key).2 = dget k p.2 := by
  unfold aggStep
  cases hd : dget key p.2 with
  | none => exact ⟨rfl, rfl⟩
  | some entry =>
    dsimp only
    have hcs1 : dget k (match dget key p.1, entry.callsign with
        | none, some c => if c.truthy then dinsert key c p.1 else p.1
        | _, _ => p.1) = dget k p.1 := by
      cases hcs : dget key p.1 with
      | some c0 => simp
      | none =>
        cases hcall : entry.callsign with
        | none => simp
        | some c2 =>
          by_cases ht : c2.truthy
          · simp [ht, dget_dinsert_ne hne]
          · simp [ht]
    constructor
    · exact hcs1
    · by_cases htr : optTruthy entry.callsign
      · simp [htr]
      · cases hcg : dget key (match dget key p.1, entry.callsign with
            | none, some c => if c.truthy then dinsert key c p.1 else p.1
            | _, _ => p.1) with
        | none => simp [htr, hcg]
        | some c => simp [htr, hcg, dget_dinsert_ne hne]

theorem aggFold_cs_some :
    ∀ (keys : List (Option JsonVal)) (p : CsMap × FeedDict) (k : Option JsonVal)
      (c : JsonVal), dget k p.1 = some c → dget k (keys.foldl aggStep p).1 = some c := by
  intro keys
  induction keys with
  | nil => intro p k c h; exact h
  | cons key rest ih => intro p k c h; exact ih (aggStep p key) k c (aggStep_cs_some h)

theorem aggFold_not_mem :
    ∀ (keys : List (Option JsonVal)) (p : CsMap × FeedDict) (k : Option JsonVal),
      k ∉ keys →
      dget k (keys.foldl aggStep p).1 = dget k p.1
        ∧ dget k (keys.foldl aggStep p).2 = dget k p.2 := by
  intro keys
  induction keys with
  | nil => intro p k _; exact ⟨rfl, rfl⟩
  | cons key rest ih =>
    intro p k hk
    have hne : key ≠ k := fun heq => hk (heq ▸ List.mem_cons_self key rest)
    have hrest : k ∉ rest := fun hmem => hk (List.mem_cons_of_mem key hmem)
    obtain ⟨h1, h2⟩ := aggStep_dget_ne (p := p) hne
    obtain ⟨h3, h4⟩ := ih (aggStep p key) k hrest
    exact ⟨h3.trans h1, h4.trans h2⟩

theorem aggFold_record :
    ∀ (keys : List (Option JsonVal)) (p : CsMap × FeedDict) (k : Option JsonVal)
      (e : Flightradar24FeedEntry) (c : JsonVal),
      keys.Nodup → k ∈ keys → dget k p.2 = some e → dget k p.1 = none →
      e.callsign = some c → c.truthy = true →
      dget k (keys.foldl aggStep p).1 = some c := by
  intro keys
  induction keys with
  | nil => intro p k e c _ hmem; cases hmem
  | cons key rest ih =>
    intro p k e c hnd hmem hd hcs hcall ht
    rcases List.mem_cons.mp hmem with heq | hmem2
    · subst heq
      have hstep : dget k (aggStep p k).1 = some c := by
        unfold aggStep
        rw [hd]
        dsimp only
        simp [hcs, hcall, ht, dget_dinsert_self]
      exact aggFold_cs_some rest (aggStep p k) k c hstep
    · have hne : key ≠ k := by
        rintro rfl
        exact (List.nodup_cons.mp hnd).1 hmem2
      obtain ⟨h1, h2⟩ := aggStep_dget_ne (p := p) hne
      exact ih (aggStep p key) k e c (List.nodup_cons.mp hnd).2 hmem2
        (h2.trans hd) (h1.trans hcs) hcall ht

theorem aggFold_repair :
    ∀ (keys : List (Option JsonVal)) (p : CsMap × FeedDict) (k : Option JsonVal)
      (e : Flightradar24FeedEntry) (c : JsonVal),
      keys.Nodup → k ∈ keys → dget k p.2 = some e → dget k p.1 = some c →
      optTruthy e.callsign = false →
      dget k (keys.foldl aggStep p).2 = some (e.override FieldKey.callsign c)
        ∧ dget k (keys.foldl aggStep p).1 = some c := by
  intro keys
  induction keys with
  | nil => intro p k e c _ hmem; cases hmem
  | cons key rest ih =>
    intro p k e c hnd hmem hd hcs hfalsy
    rcases List.mem_cons.mp hmem with heq | hmem2
    · subst heq
      have hstep : aggStep p k = (p.1, dinsert k (e.override FieldKey.callsign c) p.2) := by
        unfold aggStep
        rw [hd]
        dsimp only
        rw [hcs]
        simp [hfalsy, hcs]
      have hnotrest : k ∉ rest := (List.nodup_cons.mp hnd).1
      obtain ⟨h1, h2⟩ := aggFold_not_mem rest (aggStep p k) k hnotrest
      constructor
      · rw [List.foldl_cons, h2, hstep]
        exact dget_dinsert_self k (e.override FieldKey.callsign c) p.2
      · rw [List.foldl_cons, h1, hstep]
        exact hcs
    · have hne : key ≠ k := by
        rintro rfl
        exact (List.nodup_cons.mp hnd).1 hmem2
      obtain ⟨h1, h2⟩ := aggStep_dget_ne (p := p) hne
      exact ih (aggStep p key) k e c (List.nodup_cons.mp hnd).2 hmem2
        (h2.trans hd) (h1.trans hcs) hfalsy

/-! ### Helper lemmas about the bounded history deque -/

theorem take_cons_dropLast {m : Nat} (c : StackElem) {l : List StackElem}
    (hl : l.length = DEFAULT_AGGREGATOR_STACK_SIZE) (hm : m ≤ DEFAULT_AGGREGATOR_STACK_SIZE) :
    (c :: l.dropLast).take m = (c :: l).take m := by
  cases m with
  | zero => rfl
  | succ n =>
    rw [List.take_succ_cons, List.take_succ_cons]
    congr 1
    rw [List.dropLast_eq_take, hl]
    rw [List.take_take]
    congr 1
    have : DEFAULT_AGGREGATOR_STACK_SIZE = 10 := rfl
    omega

theorem take_append_cons_dropLast (X : List StackElem) (c : StackElem)
    {l : List StackElem} (hl : l.length = DEFAULT_AGGREGATOR_STACK_SIZE) :
    (X ++ c :: l.dropLast).take DEFAULT_AGGREGATOR_STACK_SIZE
      = (X ++ c :: l).take DEFAULT_AGGREGATOR_STACK_SIZE := by
  rw [List.take_append_eq_append_take, List.take_append_eq_append_take]
  congr 1
  exact take_cons_dropLast c hl (by omega)

theorem runUpdates_results_length :
    ∀ (ds : List FeedDict) (st : AggState), (runUpdates st ds).2.length = ds.length := by
  intro ds
  induction ds with
  | nil => intro st; rfl
  | cons d tl ih =>
    intro st
    simp only [runUpdates, Flightradar24FlightsFeedAggregator.update, resultDicts]
    simp [ih]

theorem runUpdates_stack_length :
    ∀ (ds : List FeedDict) (st : AggState),
      st.stack.length = DEFAULT_AGGREGATOR_STACK_SIZE →
      (runUpdates st ds).1.stack.length = DEFAULT_AGGREGATOR_STACK_SIZE := by
  intro ds
  induction ds with
  | nil => intro st h; exact h
  | cons d tl ih =>
    intro st h
    simp only [runUpdates, Flightradar24FlightsFeedAggregator.update]
    apply ih
    simp only [List.length_cons, List.length_dropLast, h]
    rfl

theorem runUpdates_stack_spec :
    ∀ (ds : List FeedDict) (st : AggState),
      st.stack.length = DEFAULT_AGGREGATOR_STACK_SIZE →
      (runUpdates st ds).1.stack
        = (((runUpdates st ds).2.reverse.map (fun d => StackElem.result (some d)))
            ++ st.stack).take DEFAULT_AGGREGATOR_STACK_SIZE := by
  intro ds
  induction ds with
  | nil =>
    intro st h
    simp only [runUpdates, List.reverse_nil, List.map_nil, List.nil_append]
    rw [← h, List.take_length]
  | cons d tl ih =>
    intro st h
    have hst1 : (StackElem.result (some (aggLoop st.callsigns d).2) :: st.stack.dropLast).length
        = DEFAULT_AGGREGATOR_STACK_SIZE := by
      simp only [List.length_cons, List.length_dropLast, h]
      rfl
    have ihr := ih { stack := StackElem.result (some (aggLoop st.callsigns d).2) :: st.stack.dropLast
                     callsigns := (aggLoop st.callsigns d).1 } hst1
    simp only [runUpdates, Flightradar24FlightsFeedAggregator.update, resultDicts]
    dsimp only at ihr ⊢
    rw [ihr]
    simp only [List.singleton_append, List.reverse_cons, List.map_append,
      List.append_assoc, List.map_cons, List.map_nil]
    rw [take_append_cons_dropLast _ _ h]

/-! ### Helper lemmas for successful pipelines -/

theorem isNum_exists {v : JsonVal} (h : v.isNum = true) : ∃ q, v = JsonVal.num q := by
  cases v with
  | null => cases h
  | str s => cases h
  | num q => exact ⟨q, rfl⟩

theorem filter_entries_ok_of_wf (cfg : FeedConfig) (dist : ℚ × ℚ → ℚ × ℚ → ℚ)
    (es : List Flightradar24FeedEntry)
    (h : ∀ e ∈ es, ∃ fd, e.data = some fd ∧ fd.altitude.isNum = true
        ∧ fd.latitude.isNum = true ∧ fd.longitude.isNum = true) :
    ∃ out, Flightradar24FlightsFeed.filter_entries cfg dist es = Except.ok out := by
  have h1 : ∀ e ∈ es.filter (fun e => e.coordinates.isSome), ∃ b,
      pyGtZero e.altitude = Except.ok b := by
    intro e he
    obtain ⟨fd, hfd, halt, _, _⟩ := h e (List.mem_filter.mp he).1
    obtain ⟨q, hq⟩ := isNum_exists halt
    refine ⟨decide (0 < q), ?_⟩
    simp [pyGtZero, Flightradar24FeedEntry.altitude, hfd, hq]
  obtain ⟨es2, hes2⟩ := exceptFilter_ok_of_forall h1
  cases hr : cfg.filter_radius with
  | none => exact ⟨es2, by simp [Flightradar24FlightsFeed.filter_entries, hes2, hr]⟩
  | some r =>
    by_cases h0 : r = 0
    · subst h0
      exact ⟨es2, by simp [Flightradar24FlightsFeed.filter_entries, hes2, hr]⟩
    · have h3 : ∀ e ∈ es2, ∃ b, distanceWithin dist r e = Except.ok b := by
        intro e he2
        have he1 := ((mem_exceptFilter hes2 e).mp he2).1
        obtain ⟨fd, hfd, _, hlat, hlon⟩ := h e (List.mem_filter.mp he1).1
        obtain ⟨la, hla⟩ := isNum_exists hlat
        obtain ⟨lo, hlo⟩ := isNum_exists hlon
        refine ⟨decide (dist e.home_coordinates (la, lo) ≤ r), ?_⟩
        simp [distanceWithin, Flightradar24FeedEntry.distance_to_home,
          Flightradar24FeedEntry.coordinates, hfd, hla, hlo, Except.map]
      obtain ⟨out, hout⟩ := exceptFilter_ok_of_forall h3
      exact ⟨out, by simp [Flightradar24FlightsFeed.filter_entries, hes2, hr, h0, hout]⟩

theorem wellFormedRecord_elim {r : List JsonVal} (h : wellFormedRecord r = true) :
    17 ≤ r.length ∧ (r.getD 1 JsonVal.null).isNum = true
      ∧ (r.getD 2 JsonVal.null).isNum = true ∧ (r.getD 4 JsonVal.null).isNum = true := by
  simp only [wellFormedRecord, Bool.and_eq_true, decide_eq_true_eq] at h
  exact ⟨h.1.1.1, h.1.1.2, h.1.2, h.2⟩

theorem feed_update_ok_of_wf (cfg : FeedConfig) (dist : ℚ × ℚ → ℚ × ℚ → ℚ)
    (j : List (String × List JsonVal)) (hne : j ≠ [])
    (hwf : ∀ p ∈ j, wellFormedRecord p.2 = true) :
    okWithPayload (Flightradar24FlightsFeed.update cfg dist (some j)) = true := by
  have hparse := parse_of_lengths j (fun p hp => (wellFormedRecord_elim (hwf p hp)).1)
  cases j with
  | nil => exact absurd rfl hne
  | cons hd tl =>
    have hwfe : ∀ e ∈ ((hd :: tl).map (fun p => recordOf p.2)).map
        (fun d => ({ home_coordinates := cfg.home_coordinates, data := some d } :
          Flightradar24FeedEntry)),
        ∃ fd, e.data = some fd ∧ fd.altitude.isNum = true
          ∧ fd.latitude.isNum = true ∧ fd.longitude.isNum = true := by
      intro e he
      obtain ⟨d, hdm, rfl⟩ := List.mem_map.mp he
      obtain ⟨p, hpm, rfl⟩ := List.mem_map.mp hdm
      obtain ⟨_, h1, h2, h4⟩ := wellFormedRecord_elim (hwf p hpm)
      exact ⟨recordOf p.2, rfl, h4, h1, h2⟩
    obtain ⟨out, hout⟩ := filter_entries_ok_of_wf cfg dist _ hwfe
    have hparse2 : Flightradar24FlightsFeed.parse (hd :: tl)
        = Except.ok (recordOf hd.2 :: tl.map (fun p => recordOf p.2)) := by
      simpa using hparse
    simp only [List.map_cons, List.map_map] at hout
    simp [Flightradar24FlightsFeed.update, hparse2, hout, okWithPayload]

/-! ### Claim theorems -/

/-- Claim C1 (code bug): when the fetch fails, `Flightradar24FlightsFeed.update`
returns the error outcome with no payload, and
`Flightradar24FlightsFeedAggregator.update` then leaves the callsign memory and
the history stack unchanged — but instead of returning the error outcome it
raises a `TypeError`, because the gap-filling loop iterates over the `None`
payload. -/
theorem aggregator_failed_update_raises :
    (∀ (cfg : FeedConfig) (dist : ℚ × ℚ → ℚ × ℚ → ℚ),
      Flightradar24FlightsFeed.update cfg dist none
        = Except.ok (Status.UPDATE_ERROR, none))
    ∧ ∀ (st : AggState),
        Flightradar24FlightsFeedAggregator.update st Status.UPDATE_ERROR none
          = (st, Except.error PyErr.typeError) :=
  ⟨fun _ _ => rfl, fun _ => rfl⟩

/-- Claim C2, counterexample: on a 2xx response whose body is the empty JSON
object, `Flightradar24FlightsFeed.update` returns the success outcome with an
absent payload, contradicting the claim that a successful fetch never yields a
success outcome without a mapping. -/
theorem feed_update_empty_object_cex :
    Flightradar24FlightsFeed.update cfgNoRadius (distConst 0) (some [])
        = Except.ok (Status.UPDATE_OK, none)
    ∧ okWithPayload (Flightradar24FlightsFeed.update cfgNoRadius (distConst 0) (some []))
        = false :=
  ⟨rfl, rfl⟩

/-- Claim C2, amended: a successful fetch whose body parses as a NON-EMPTY
JSON object of well-formed records yields the success outcome paired with a
mapping, while the empty JSON object yields the success outcome with an absent
payload. -/
theorem feed_update_success_payload :
    (∀ (cfg : FeedConfig) (dist : ℚ × ℚ → ℚ × ℚ → ℚ)
      (j : List (String × List JsonVal)), j ≠ [] →
      (∀ p ∈ j, wellFormedRecord p.2 = true) →
      okWithPayload (Flightradar24FlightsFeed.update cfg dist (some j)) = true)
    ∧ ∀ (cfg : FeedConfig) (dist : ℚ × ℚ → ℚ × ℚ → ℚ),
        Flightradar24FlightsFeed.update cfg dist (some [])
          = Except.ok (Status.UPDATE_OK, none) :=
  ⟨feed_update_ok_of_wf, fun _ _ => rfl⟩

/-- Witness for the amended claim C2 at a concrete one-record body. -/
theorem feed_update_success_payload_witness :
    okWithPayload (Flightradar24FlightsFeed.update cfgNoRadius (distConst 0)
      (some bodyOneRecord)) = true :=
  feed_update_success_payload.1 cfgNoRadius (distConst 0) bodyOneRecord
    (by simp [bodyOneRecord]) (by decide)

/-- Claim C4, counterexample: a batch holding one well-formed record and one
record shorter than 17 positions makes the whole decode raise `IndexError`,
and the cycle fails rather than producing a result covering the well-formed
record. -/
theorem parse_short_record_cex :
    Flightradar24FlightsFeed.parse bodyWithShortRecord = Except.error PyErr.indexError
    ∧ Flightradar24FlightsFeed.update cfgNoRadius (distConst 0) (some bodyWithShortRecord)
        = Except.error PyErr.indexError :=
  ⟨rfl, rfl⟩

/-- Claim C4, amended: any batch containing a record shorter than 17 positions
aborts decoding of the whole batch with an uncaught `IndexError`, and the
update cycle fails with that error instead of producing a per-entry result. -/
theorem parse_short_record_aborts_batch :
    ∀ (j : List (String × List JsonVal)) (cfg : FeedConfig)
      (dist : ℚ × ℚ → ℚ × ℚ → ℚ), (∃ p ∈ j, p.2.length < 17) →
      Flightradar24FlightsFeed.parse j = Except.error PyErr.indexError
        ∧ Flightradar24FlightsFeed.update cfg dist (some j)
            = Except.error PyErr.indexError := by
  intro j cfg dist h
  have hp := parse_of_short_mem j h
  refine ⟨hp, ?_⟩
  simp [Flightradar24FlightsFeed.update, hp]

/-- Witness for the amended claim C4 at a concrete one-record body. -/
theorem parse_short_record_aborts_batch_witness :
    Flightradar24FlightsFeed.parse bodyOnlyShortRecord = Except.error PyErr.indexError
    ∧ Flightradar24FlightsFeed.update cfgNoRadius (distConst 0) (some bodyOnlyShortRecord)
        = Except.error PyErr.indexError :=
  parse_short_record_aborts_batch bodyOnlyShortRecord cfgNoRadius (distConst 0)
    ⟨("7C6B29", [JsonVal.null]), by simp [bodyOnlyShortRecord], by simp⟩

/-- Claim C3, counterexample: an entry whose record stores `null` latitude and
longitude still exposes a present coordinates pair, so the filter retains it
(here with a positive altitude and no radius configured), contradicting the
claim that an entry with missing latitude or longitude is always excluded. -/
theorem filter_null_coordinates_cex :
    entryNullCoords.data.map FieldData.latitude = some JsonVal.null
    ∧ entryNullCoords.data.map FieldData.longitude = some JsonVal.null
    ∧ entryNullCoords.coordinates = some (JsonVal.null, JsonVal.null)
    ∧ Flightradar24FlightsFeed.filter_entries cfgNoRadius (distConst 0) [entryNullCoords]
        = Except.ok [entryNullCoords] :=
  ⟨rfl, rfl, rfl, rfl⟩

/-- Claim C3, amended: the coordinates-based exclusion drops exactly the
entries with an empty underlying record: the coordinates pair is present if
and only if the record is non-empty, and any entry with an empty record is
excluded from every successful filter output.  Entries whose record stores
`null` latitude or longitude values still have a present pair and pass the
coordinates check. -/
theorem filter_absent_coordinates :
    (∀ (cfg : FeedConfig) (dist : ℚ × ℚ → ℚ × ℚ → ℚ)
      (es out : List Flightradar24FeedEntry) (e : Flightradar24FeedEntry),
      Flightradar24FlightsFeed.filter_entries cfg dist es = Except.ok out →
      e.data = none → e ∉ out)
    ∧ ∀ e : Flightradar24FeedEntry, e.coordinates.isSome = e.data.isSome := by
  constructor
  · intro cfg dist es out e h hdata hmem
    have hco := (mem_of_mem_filter_entries h hmem).2.1
    simp [Flightradar24FeedEntry.coordinates, hdata] at hco
  · intro e
    cases hd : e.data <;> simp [Flightradar24FeedEntry.coordinates, hd]

/-- Witness for the amended claim C3 at a concrete empty-record entry. -/
theorem filter_absent_coordinates_witness :
    entryNoData ∉ ([] : List Flightradar24FeedEntry)
    ∧ entryNoData.coordinates.isSome = entryNoData.data.isSome :=
  ⟨filter_absent_coordinates.1 cfgNoRadius (distConst 0) [entryNoData] [] entryNoData rfl rfl,
   filter_absent_coordinates.2 entryNoData⟩

/-- Claim C8, counterexample: an entry whose record stores a `null` altitude
is not silently excluded; the comparison `altitude > 0` raises `TypeError`
and the whole filter aborts, producing no output at all. -/
theorem filter_null_altitude_cex :
    entryNullAltitude.altitude = some JsonVal.null
    ∧ Flightradar24FlightsFeed.filter_entries cfgNoRadius (distConst 0) [entryNullAltitude]
        = Except.error PyErr.typeError :=
  ⟨rfl, rfl⟩

/-- Claim C8, amended: whenever the filter produces an output, an entry with
numeric altitude `0` is excluded from it (regardless of the radius
configuration), and so is an entry with an empty record; but an entry whose
record stores a `null` altitude makes the filter raise `TypeError`, so no
output exists for such a batch. -/
theorem filter_grounded_excluded :
    (∀ (cfg : FeedConfig) (dist : ℚ × ℚ → ℚ × ℚ → ℚ)
      (es out : List Flightradar24FeedEntry) (e : Flightradar24FeedEntry),
      Flightradar24FlightsFeed.filter_entries cfg dist es = Except.ok out →
      e.altitude = some (JsonVal.num 0) → e ∉ out)
    ∧ (∀ (cfg : FeedConfig) (dist : ℚ × ℚ → ℚ × ℚ → ℚ)
        (es out : List Flightradar24FeedEntry) (e : Flightradar24FeedEntry),
        Flightradar24FlightsFeed.filter_entries cfg dist es = Except.ok out →
        e.data = none → e ∉ out)
    ∧ ∀ (cfg : FeedConfig) (dist : ℚ × ℚ → ℚ × ℚ → ℚ)
        (es out : List Flightradar24FeedEntry) (e : Flightradar24FeedEntry)
        (fd : FieldData), e ∈ es → e.data = some fd → fd.altitude = JsonVal.null →
        Flightradar24FlightsFeed.filter_entries cfg dist es ≠ Except.ok out := by
  refine ⟨?_, ?_, ?_⟩
  · intro cfg dist es out e h halt hmem
    have h2 := (mem_of_mem_filter_entries h hmem).2.2
    rw [halt] at h2
    simp only [pyGtZero, Except.ok.injEq] at h2
    exact absurd h2 (by decide)
  · intro cfg dist es out e h hdata hmem
    have hco := (mem_of_mem_filter_entries h hmem).2.1
    simp [Flightradar24FeedEntry.coordinates, hdata] at hco
  · intro cfg dist es out e fd hmem hdata halt hok
    obtain ⟨es2, h2, _, _⟩ := filter_entries_ok_elim hok
    have he1 : e ∈ es.filter (fun e => e.coordinates.isSome) :=
      List.mem_filter.mpr ⟨hmem, by simp [Flightradar24FeedEntry.coordinates, hdata]⟩
    obtain ⟨b, hb⟩ := exceptFilter_ok_forall h2 e he1
    rw [show pyGtZero e.altitude = Except.error PyErr.typeError from
      by simp [pyGtZero, Flightradar24FeedEntry.altitude, hdata, halt]] at hb
    cases hb

/-- Witness for the amended claim C8 at concrete entries. -/
theorem filter_grounded_excluded_witness :
    entryZeroAltitude ∉ ([] : List Flightradar24FeedEntry)
    ∧ Flightradar24FlightsFeed.filter_entries cfgNoRadius (distConst 0) [entryNullAltitude]
        ≠ Except.ok [] :=
  ⟨filter_grounded_excluded.1 cfgNoRadius (distConst 0) [entryZeroAltitude] []
      entryZeroAltitude rfl rfl,
   filter_grounded_excluded.2.2 cfgNoRadius (distConst 0) [entryNullAltitude] []
      entryNullAltitude recordNullAltitude (by simp) rfl rfl⟩

/-- Claim C9, counterexample: a configured radius of `0` is falsy in Python,
so no distance filtering happens at all: an airborne entry 5 km from the
reference point is retained even though 5 is not within the radius 0,
contradicting the claim that with a radius supplied an entry is retained if
and only if its distance is within the radius. -/
theorem filter_zero_radius_cex :
    cfgZeroRadius.filter_radius = some 0
    ∧ entryAirborne.distance_to_home (distConst 5) = Except.ok 5
    ∧ ¬ ((5 : ℚ) ≤ 0)
    ∧ Flightradar24FlightsFeed.filter_entries cfgZeroRadius (distConst 5) [entryAirborne]
        = Except.ok [entryAirborne] :=
  ⟨rfl, rfl, by decide, rfl⟩

/-- Claim C9, amended: for an entry with a present coordinates pair and a
passing altitude check, a configured NONZERO radius retains it if and only if
its distance to the reference point is at most the radius (the boundary is
inclusive), while no radius or a zero radius applies no distance filtering. -/
theorem filter_radius_boundary :
    (∀ (cfg : FeedConfig) (dist : ℚ × ℚ → ℚ × ℚ → ℚ)
      (es out : List Flightradar24FeedEntry) (e : Flightradar24FeedEntry) (r dv : ℚ),
      Flightradar24FlightsFeed.filter_entries cfg dist es = Except.ok out →
      e ∈ es → cfg.filter_radius = some r → r ≠ 0 →
      e.coordinates.isSome = true → pyGtZero e.altitude = Except.ok true →
      e.distance_to_home dist = Except.ok dv →
      (e ∈ out ↔ dv ≤ r))
    ∧ ∀ (cfg : FeedConfig) (dist : ℚ × ℚ → ℚ × ℚ → ℚ)
        (es out : List Flightradar24FeedEntry) (e : Flightradar24FeedEntry),
        Flightradar24FlightsFeed.filter_entries cfg dist es = Except.ok out →
        e ∈ es → (cfg.filter_radius = none ∨ cfg.filter_radius = some 0) →
        e.coordinates.isSome = true → pyGtZero e.altitude = Except.ok true →
        e ∈ out := by
  constructor
  · intro cfg dist es out e r dv h hmem hr h0 hco halt hdist
    obtain ⟨es2, h2, _, htruthy⟩ := filter_entries_ok_elim h
    have h3 := htruthy r hr h0
    have he2 : e ∈ es2 :=
      (mem_exceptFilter h2 e).mpr ⟨List.mem_filter.mpr ⟨hmem, hco⟩, halt⟩
    have hpred : distanceWithin dist r e = Except.ok (decide (dv ≤ r)) := by
      simp [distanceWithin, hdist, Except.map]
    constructor
    · intro hout
      have hb := ((mem_exceptFilter h3 e).mp hout).2
      rw [hpred] at hb
      injection hb with hb
      exact of_decide_eq_true hb
    · intro hle
      refine (mem_exceptFilter h3 e).mpr ⟨he2, ?_⟩
      rw [hpred, decide_eq_true hle]
  · intro cfg dist es out e h hmem hfalsy hco halt
    obtain ⟨es2, h2, hfl, _⟩ := filter_entries_ok_elim h
    rw [hfl hfalsy]
    exact (mem_exceptFilter h2 e).mpr ⟨List.mem_filter.mpr ⟨hmem, hco⟩, halt⟩

/-- Witness for the amended claim C9: at exactly the radius the entry is
retained (boundary inclusive), and with no radius configured the airborne
entry is retained. -/
theorem filter_radius_boundary_witness :
    ((entryAirborne ∈ ([entryAirborne] : List Flightradar24FeedEntry)) ↔ ((50 : ℚ) ≤ 50))
    ∧ entryAirborne ∈ ([entryAirborne] : List Flightradar24FeedEntry) :=
  ⟨filter_radius_boundary.1 cfgRadius50 (distConst 50) [entryAirborne] [entryAirborne]
      entryAirborne 50 50 rfl (by simp) rfl (by decide) rfl rfl rfl,
   filter_radius_boundary.2 cfgNoRadius (distConst 0) [entryAirborne] [entryAirborne]
      entryAirborne rfl (by simp) (Or.inl rfl) rfl rfl⟩

/-- Claim C5, counterexample: the raw record literal quoted by the claim has
18 positions (five reserved zeros follow the timestamp instead of four), so
decoding it puts `0` in the vertical rate and the number `800` — not
`"BAW123"` — in the callsign. -/
theorem decode_spec_literal_cex :
    specLiteralRecord.length = 18
    ∧ Flightradar24FlightsFeed.parseRecord specLiteralRecord
        = Except.ok (recordOf specLiteralRecord)
    ∧ (recordOf specLiteralRecord).vert_rate = JsonVal.num 0
    ∧ (recordOf specLiteralRecord).callsign = JsonVal.num 800
    ∧ (recordOf specLiteralRecord).callsign ≠ JsonVal.str "BAW123" :=
  ⟨rfl, rfl, rfl, rfl, fun h => nomatch h⟩

/-- Claim C5, amended: the 17-position record with FOUR reserved zeros after
the timestamp decodes to the ten claimed fields — identifier `"A1B2C3"`,
latitude 51.5, longitude -0.1, track 90, altitude 5000, speed 250, squawk
`"1200"`, updated 1700000000 (parsed as 2023-11-14T22:13:20 UTC), vertical
rate 800, callsign `"BAW123"` — and in general decoding reads positions
0, 1, 2, 3, 4, 5, 6, 10, 15, 16 of any sufficiently long record into the ten
named fields. -/
theorem decode_field_mapping :
    Flightradar24FlightsFeed.parseRecord exampleRecord = Except.ok
      { mode_s := JsonVal.str "A1B2C3", latitude := JsonVal.num 51.5,
        longitude := JsonVal.num (-0.1), track := JsonVal.num 90,
        altitude := JsonVal.num 5000, speed := JsonVal.num 250,
        squawk := JsonVal.str "1200", updated := JsonVal.num 1700000000,
        vert_rate := JsonVal.num 800, callsign := JsonVal.str "BAW123" }
    ∧ Flightradar24FeedEntry.updated
        { home_coordinates := (0, 0), data := some (recordOf exampleRecord) }
        = Except.ok (some { year := 2023, month := 11, day := 14, hour := 22,
                            minute := 13, second := 20 })
    ∧ ∀ (r : List JsonVal), 17 ≤ r.length →
        Flightradar24FlightsFeed.parseRecord r = Except.ok (recordOf r) := by
  refine ⟨rfl, ?_, parseRecord_of_length⟩
  have hts : fromtimestampUTC 1700000000
      = { year := 2023, month := 11, day := 14, hour := 22, minute := 13,
          second := 20 } := by
    have h1 : ⌊(1700000000 : ℚ) / 86400⌋ = 19675 := by rw [Int.floor_eq_iff]; norm_num
    have h2 : (1700000000 : ℚ) - ((19675 : Int) : ℚ) * 86400 = 80000 := by norm_num
    have h3 : ⌊(80000 : ℚ)⌋ = 80000 := by norm_num
    have h4 : Int.toNat 8658 = 8658 := rfl
    have h5 : Int.toNat 80000 = 80000 := rfl
    simp only [fromtimestampUTC, h1, h2, h3]
    norm_num [civilFromDays, Int.fdiv, h4, h5]
  have hrec : recordOf exampleRecord
      = { mode_s := JsonVal.str "A1B2C3", latitude := JsonVal.num 51.5,
          longitude := JsonVal.num (-0.1), track := JsonVal.num 90,
          altitude := JsonVal.num 5000, speed := JsonVal.num 250,
          squawk := JsonVal.str "1200", updated := JsonVal.num 1700000000,
          vert_rate := JsonVal.num 800, callsign := JsonVal.str "BAW123" } := rfl
  rw [hrec]
  have htr : (JsonVal.num 1700000000).truthy = true := by
    simp [JsonVal.truthy]
  simp [Flightradar24FeedEntry.updated, htr, hts]

/-- Witness for the amended claim C5: the general position mapping applied to
the concrete 17-position record. -/
theorem decode_field_mapping_witness :
    Flightradar24FlightsFeed.parseRecord exampleRecord
      = Except.ok (recordOf exampleRecord) :=
  decode_field_mapping.2.2 exampleRecord (by norm_num [exampleRecord])

/-- Claim C10: on an entry with a non-empty record, `override` replaces
exactly the named field: the named field reads the new value, every other
field is unchanged, the home coordinates are unchanged, and every derived
property that does not depend on the named field is unchanged. -/
theorem override_frame :
    ∀ (e : Flightradar24FeedEntry) (fd : FieldData) (k : FieldKey) (v : JsonVal),
      e.data = some fd →
      (e.override k v).data = some (fd.set k v)
      ∧ (fd.set k v).get k = v
      ∧ (∀ k2, k2 ≠ k → (fd.set k v).get k2 = fd.get k2)
      ∧ (e.override k v).home_coordinates = e.home_coordinates
      ∧ (k ≠ FieldKey.mode_s → (e.override k v).external_id = e.external_id)
      ∧ (k ≠ FieldKey.latitude → k ≠ FieldKey.longitude →
          (e.override k v).coordinates = e.coordinates
          ∧ ∀ dist : ℚ × ℚ → ℚ × ℚ → ℚ,
              (e.override k v).distance_to_home dist = e.distance_to_home dist)
      ∧ (k ≠ FieldKey.altitude → (e.override k v).altitude = e.altitude)
      ∧ (k ≠ FieldKey.callsign → (e.override k v).callsign = e.callsign)
      ∧ (k ≠ FieldKey.speed → (e.override k v).speed = e.speed)
      ∧ (k ≠ FieldKey.track → (e.override k v).track = e.track)
      ∧ (k ≠ FieldKey.updated → (e.override k v).updated = e.updated) := by
  intro e fd k v h
  obtain ⟨home, data⟩ := e
  change data = some fd at h
  subst h
  refine ⟨rfl, ?_, ?_, rfl, ?_, ?_, ?_, ?_, ?_, ?_, ?_⟩
  · cases k <;> rfl
  · intro k2 hk
    cases k <;> cases k2 <;> first | exact absurd rfl hk | rfl
  · intro hk
    cases k <;> first | exact absurd rfl hk | rfl
  · intro hk1 hk2
    constructor
    · cases k <;> first | exact absurd rfl hk1 | exact absurd rfl hk2 | rfl
    · intro dist
      cases k <;> first | exact absurd rfl hk1 | exact absurd rfl hk2 | rfl
  · intro hk
    cases k <;> first | exact absurd rfl hk | rfl
  · intro hk
    cases k <;> first | exact absurd rfl hk | rfl
  · intro hk
    cases k <;> first | exact absurd rfl hk | rfl
  · intro hk
    cases k <;> first | exact absurd rfl hk | rfl
  · intro hk
    cases k <;> first | exact absurd rfl hk | rfl

/-- Witness for claim C10 at a concrete callsign override. -/
theorem override_frame_witness :
    (entryCycle2.override FieldKey.callsign (JsonVal.str "UAL1")).data
        = some (recordCycle2.set FieldKey.callsign (JsonVal.str "UAL1"))
    ∧ (recordCycle2.set FieldKey.callsign (JsonVal.str "UAL1")).get FieldKey.callsign
        = JsonVal.str "UAL1" :=
  ⟨(override_frame entryCycle2 recordCycle2 FieldKey.callsign (JsonVal.str "UAL1") rfl).1,
   (override_frame entryCycle2 recordCycle2 FieldKey.callsign (JsonVal.str "UAL1") rfl).2.1⟩

/-- Claim C6: callsign memory is first-write-wins and repairs gaps.  On a
successful update whose payload has distinct keys: (1) a key not yet
remembered whose entry carries a truthy callsign gets recorded; (2) for a key
already remembered as `c`, when the incoming entry has a falsy callsign the
returned payload maps that key to an entry whose callsign reads `c`, and the
memory still maps it to `c`; (3) the memory never overwrites an existing
association, whatever the status or payload of the update. -/
theorem callsign_memory_first_write_wins :
    (∀ (st : AggState) (d : FeedDict) (k : Option JsonVal)
      (e : Flightradar24FeedEntry) (c : JsonVal),
      (d.map Prod.fst).Nodup → dget k st.callsigns = none → dget k d = some e →
      e.callsign = some c → c.truthy = true →
      dget k ((Flightradar24FlightsFeedAggregator.update st Status.UPDATE_OK
        (some d)).1).callsigns = some c)
    ∧ (∀ (st : AggState) (d : FeedDict) (k : Option JsonVal)
        (e : Flightradar24FeedEntry) (c : JsonVal) (fd : FieldData),
        (d.map Prod.fst).Nodup → dget k st.callsigns = some c → dget k d = some e →
        optTruthy e.callsign = false → e.data = some fd →
        (Flightradar24FlightsFeedAggregator.update st Status.UPDATE_OK (some d)).2
            = Except.ok (Status.UPDATE_OK, some (aggLoop st.callsigns d).2)
          ∧ Option.map Flightradar24FeedEntry.callsign
              (dget k (aggLoop st.callsigns d).2) = some (some c)
          ∧ dget k ((Flightradar24FlightsFeedAggregator.update st Status.UPDATE_OK
              (some d)).1).callsigns = some c)
    ∧ ∀ (st : AggState) (status : Status) (data : Option FeedDict)
        (k : Option JsonVal) (c : JsonVal), dget k st.callsigns = some c →
        dget k ((Flightradar24FlightsFeedAggregator.update st status data).1).callsigns
          = some c := by
  refine ⟨?_, ?_, ?_⟩
  · intro st d k e c hnd hcsn hdk hcall ht
    show dget k ((d.map Prod.fst).foldl aggStep (st.callsigns, d)).1 = some c
    exact aggFold_record (d.map Prod.fst) (st.callsigns, d) k e c hnd
      (dget_some_mem hdk) hdk hcsn hcall ht
  · intro st d k e c fd hnd hcs hdk hfalsy hdata
    have hrep := aggFold_repair (d.map Prod.fst) (st.callsigns, d) k e c hnd
      (dget_some_mem hdk) hdk hcs hfalsy
    refine ⟨rfl, ?_, ?_⟩
    · have hv : dget k (aggLoop st.callsigns d).2
          = some (e.override FieldKey.callsign c) := hrep.1
      rw [hv]
      simp [Flightradar24FeedEntry.override, Flightradar24FeedEntry.callsign,
        hdata, FieldData.set]
    · show dget k ((d.map Prod.fst).foldl aggStep (st.callsigns, d)).1 = some c
      exact hrep.2
  · intro st status data k c hcs
    cases status with
    | UPDATE_OK =>
      cases data with
      | none => exact hcs
      | some d => exact aggFold_cs_some (d.map Prod.fst) (st.callsigns, d) k c hcs
    | UPDATE_ERROR =>
      cases data with
      | none => exact hcs
      | some d => exact aggFold_cs_some (d.map Prod.fst) (st.callsigns, d) k c hcs

/-- Witness for claim C6 across the three concrete cycles of the scenario:
cycle 1 records `"UAL1"`, cycle 2 repairs the empty callsign from memory, and
cycle 3 does not overwrite the memory with `"UAL2"`. -/
theorem callsign_memory_first_write_wins_witness :
    dget keyX ((Flightradar24FlightsFeedAggregator.update
        Flightradar24FlightsFeedAggregator.initState Status.UPDATE_OK
        (some [(keyX, entryCycle1)])).1).callsigns = some (JsonVal.str "UAL1")
    ∧ Option.map Flightradar24FeedEntry.callsign
        (dget keyX (aggLoop stateRemembersUAL1.callsigns [(keyX, entryCycle2)]).2)
        = some (some (JsonVal.str "UAL1"))
    ∧ dget keyX ((Flightradar24FlightsFeedAggregator.update stateRemembersUAL1
        Status.UPDATE_OK (some [(keyX, entryCycle3)])).1).callsigns
        = some (JsonVal.str "UAL1") :=
  ⟨callsign_memory_first_write_wins.1 Flightradar24FlightsFeedAggregator.initState
      [(keyX, entryCycle1)] keyX entryCycle1 (JsonVal.str "UAL1")
      (by simp) rfl (by simp [dget]) rfl rfl,
   (callsign_memory_first_write_wins.2.1 stateRemembersUAL1 [(keyX, entryCycle2)]
      keyX entryCycle2 (JsonVal.str "UAL1") recordCycle2
      (by simp) rfl (by simp [dget]) rfl rfl).2.1,
   callsign_memory_first_write_wins.2.2 stateRemembersUAL1 Status.UPDATE_OK
      (some [(keyX, entryCycle3)]) keyX (JsonVal.str "UAL1") rfl⟩

/-- Claim C7: starting from the initial aggregator state, after more than
`DEFAULT_AGGREGATOR_STACK_SIZE` successful updates the history deque holds
exactly the most recent `DEFAULT_AGGREGATOR_STACK_SIZE` returned poll results
in most-recent-first order, and its length equals the capacity after every
prefix of the run. -/
theorem history_stack_capacity :
    ∀ ds : List FeedDict, DEFAULT_AGGREGATOR_STACK_SIZE < ds.length →
      (runUpdates Flightradar24FlightsFeedAggregator.initState ds).1.stack
        = ((runUpdates Flightradar24FlightsFeedAggregator.initState ds).2.reverse.take
            DEFAULT_AGGREGATOR_STACK_SIZE).map (fun d => StackElem.result (some d))
      ∧ ∀ n : Nat,
          (runUpdates Flightradar24FlightsFeedAggregator.initState
            (ds.take n)).1.stack.length = DEFAULT_AGGREGATOR_STACK_SIZE := by
  intro ds hlen
  have hinit : Flightradar24FlightsFeedAggregator.initState.stack.length
      = DEFAULT_AGGREGATOR_STACK_SIZE := by
    simp [Flightradar24FlightsFeedAggregator.initState]
  constructor
  · have hspec := runUpdates_stack_spec ds Flightradar24FlightsFeedAggregator.initState hinit
    have hrlen := runUpdates_results_length ds Flightradar24FlightsFeedAggregator.initState
    rw [hspec, List.take_append_of_le_length (by simp [hrlen]; omega)]
    exact (List.map_take _ _ _).symm
  · intro n
    exact runUpdates_stack_length (ds.take n) Flightradar24FlightsFeedAggregator.initState hinit

/-- Witness for claim C7 on a run of 11 successful updates with empty poll
results. -/
theorem history_stack_capacity_witness :
    (runUpdates Flightradar24FlightsFeedAggregator.initState
        (List.replicate 11 ([] : FeedDict))).1.stack
      = ((runUpdates Flightradar24FlightsFeedAggregator.initState
          (List.replicate 11 ([] : FeedDict))).2.reverse.take
            DEFAULT_AGGREGATOR_STACK_SIZE).map (fun d => StackElem.result (some d)) :=
  (history_stack_capacity (List.replicate 11 [])
    (by norm_num [DEFAULT_AGGREGATOR_STACK_SIZE])).1
